import Mathlib

/-!
Verification of the IngredientIQ acquisition-and-reconciliation core.

The development shallowly embeds the client-side logic of the repository:

* the per-ingredient analysis matcher of the result view (the
  `analysisResults.find(...)` predicates of the OCR-ingredient path and the
  product-ingredient path),
* the analysis aggregation (per-safety-level count badges and the detailed
  analysis list),
* the scan view's capture lifecycle (`handleTabChange`, `stopCamera`,
  `stopCameraForOCR`, `startCameraForOCR`, `handleBarcodeDetected`),
* the `ApiService` operations' error handling (the try/catch envelopes).

JavaScript strings are modelled as Lean `String`s; the string methods the
source uses (`toLowerCase`, `trim`, `includes`, `split`, truthiness of a
string) are defined structurally over the character list so that concrete
evaluation reduces in the kernel.  `toLowerCase` is modelled on the ASCII
range (the source data is ASCII ingredient text); `trim` strips the usual
whitespace characters.
-/

/-- Model of JS `String.prototype.toLowerCase` (ASCII range). -/
def jsToLowerCase (s : String) : String := ⟨s.data.map Char.toLower⟩

/-- Model of JS `String.prototype.trim`: strip whitespace from both ends. -/
def jsTrim (s : String) : String :=
  ⟨((s.data.dropWhile Char.isWhitespace).reverse.dropWhile Char.isWhitespace).reverse⟩

/-- Occurrence check of a character list inside another (helper for
`jsIncludes`); the empty needle occurs in every list, as in JS. -/
def occursIn (needle : List Char) : List Char → Bool
  | [] => needle.isEmpty
  | c :: cs => needle.isPrefixOf (c :: cs) || occursIn needle cs

/-- Model of JS `s.includes(t)`: `t` occurs contiguously inside `s`. -/
def jsIncludes (s t : String) : Bool := occursIn t.data s.data

/-- Helper for `jsSplit`: walk the character list accumulating the current
field, emitting a field at each separator.  Mirrors JS `split`, which keeps
empty fields between adjacent separators and at the ends. -/
def jsSplitAux (sep : Char → Bool) : List Char → List Char → List (List Char)
  | [], acc => [acc.reverse]
  | c :: cs, acc =>
    if sep c then acc.reverse :: jsSplitAux sep cs [] else jsSplitAux sep cs (c :: acc)

/-- Model of JS `String.prototype.split` with a single-character class
separator (empty fields are kept, as in JS). -/
def jsSplit (sep : Char → Bool) (s : String) : List String :=
  (jsSplitAux sep s.data []).map (fun l => ⟨l⟩)

/-- Truthiness of a JS string: the empty string is falsy. -/
def jsFalsy (s : String) : Bool := s.data.isEmpty

/-- The safety levels of `IngredientAnalysisResult.safety_level`
(frontend/src/services/api.ts). -/
inductive SafetyLevel where
  | safe
  | caution
  | avoid
  | unknown
deriving DecidableEq, Repr

/-- The `IngredientAnalysisResult` record of frontend/src/services/api.ts
(the `nutrition` map is omitted: no code under study reads it; the numeric
`health_score` is modelled as an integer). -/
structure IngredientAnalysisResult where
  name : String
  id : Nat
  safety_level : SafetyLevel
  health_score : Option Int
  concerns : List String
  benefits : List String
deriving DecidableEq, Repr

/-- The separator class of the OCR matcher's word split,
`split(/[\s,;.]+/)`: whitespace, comma, semicolon or dot. -/
def isWordSep (c : Char) : Bool := c.isWhitespace || c = ',' || c = ';' || c = '.'

/-- The word list of the OCR matcher:
`name.split(/[\s,;.]+/).filter(Boolean)` — split on separator runs and drop
empty fields. -/
def ocrWords (s : String) : List String :=
  (jsSplit isWordSep s).filter (fun w => !(jsFalsy w))

/-- The per-candidate predicate of the OCR-ingredient matcher
(ResultPage, OCR result list): guard against a missing or empty record
name, normalise both sides by `toLowerCase().trim()`, guard against either
normalised side being empty, then test exact equality, substring
containment in either direction, and finally pairwise word containment. -/
def ocrMatchPred (ingredientText : String) (a : IngredientAnalysisResult) : Bool :=
  if jsFalsy a.name then false
  else
    let analysisName := jsTrim (jsToLowerCase a.name)
    let ingredientLower := jsTrim (jsToLowerCase ingredientText)
    if jsFalsy analysisName || jsFalsy ingredientLower then false
    else if analysisName = ingredientLower then true
    else if jsIncludes ingredientLower analysisName || jsIncludes analysisName ingredientLower then
      true
    else
      (ocrWords analysisName).any (fun aw =>
        (ocrWords ingredientLower).any (fun iw => jsIncludes iw aw || jsIncludes aw iw))

/-- The per-candidate predicate of the product-ingredient matcher
(ResultPage, product ingredient list): guard against a missing or empty
record name, lowercase both sides (no trim), then test exact equality,
substring containment in either direction, and finally whether any
space-separated word of the record name (empty words included — `split(' ')`
is not filtered here) occurs in the ingredient text. -/
def productMatchPred (ingredientText : String) (a : IngredientAnalysisResult) : Bool :=
  if jsFalsy a.name then false
  else
    jsToLowerCase a.name = jsToLowerCase ingredientText ||
    jsIncludes (jsToLowerCase ingredientText) (jsToLowerCase a.name) ||
    jsIncludes (jsToLowerCase a.name) (jsToLowerCase ingredientText) ||
    (jsSplit (fun c => c = ' ') (jsToLowerCase a.name)).any
      (fun word => jsIncludes (jsToLowerCase ingredientText) word)

/-- The OCR-path reconciliation pass: `ocrResult.ingredients.map(...)` with
`analysisResults.find(...)` inside — one `(ingredient, bound record?)` pair
per ingredient text, each bound to the first record of the pool satisfying
`ocrMatchPred`, independently of the other ingredients. -/
def ocrReconcile (ingredients : List String)
    (analysisResults : List IngredientAnalysisResult) :
    List (String × Option IngredientAnalysisResult) :=
  ingredients.map (fun ingredientText =>
    (ingredientText, analysisResults.find? (ocrMatchPred ingredientText)))

/-- The product-path reconciliation pass: `product.ingredients.map(...)`
with `analysisResults?.find(...)` inside. -/
def productReconcile (ingredients : List String)
    (analysisResults : List IngredientAnalysisResult) :
    List (String × Option IngredientAnalysisResult) :=
  ingredients.map (fun ingredientText =>
    (ingredientText, analysisResults.find? (productMatchPred ingredientText)))

/-- The count badge of the analysis summary:
`analysisResults.filter(i => i.safety_level === lvl).length`, computed over
the full analysis record list. -/
def safetyLevelCount (analysisResults : List IngredientAnalysisResult)
    (lvl : SafetyLevel) : Nat :=
  (analysisResults.filter (fun i => i.safety_level == lvl)).length

/-- The detailed analysis list:
`analysisResults.filter(item => item.concerns.length > 0 || item.benefits.length > 0)`,
again over the full analysis record list, in record order. -/
def detailedAnalysisList (analysisResults : List IngredientAnalysisResult) :
    List IngredientAnalysisResult :=
  analysisResults.filter
    (fun item => decide (item.concerns.length > 0) || decide (item.benefits.length > 0))

/-- The exact-equality (tier-1) comparison of the OCR matching path, as the
source computes it: both sides `toLowerCase().trim()`, then strict
equality. -/
def ocrTier1Equal (ingredientText name : String) : Bool :=
  jsTrim (jsToLowerCase name) == jsTrim (jsToLowerCase ingredientText)

/-- The exact-equality (tier-1) comparison of the product matching path, as
the source computes it: both sides `toLowerCase()` only, then strict
equality. -/
def productTier1Equal (ingredientText name : String) : Bool :=
  jsToLowerCase name == jsToLowerCase ingredientText

/-- Modelled from the spec: the at-most-one-consumer invariant of §3 /
§8 — no analysis record appears in more than one match result of a single
reconciliation pass (for pools of pairwise distinct records this is
exactly `Nodup` of the list of bound records). -/
def recordBoundAtMostOnce
    (results : List (String × Option IngredientAnalysisResult)) : Prop :=
  (results.filterMap Prod.snd).Nodup

/-- Modelled from the spec: the matched-records view of a reconciliation
output (§4.4 — records bound to some ingredient). -/
def specMatchedRecords
    (results : List (String × Option IngredientAnalysisResult)) :
    List IngredientAnalysisResult :=
  results.filterMap Prod.snd

/-- Modelled from the spec: the per-safety-level count of §4.4, over the
records matched to some ingredient only. -/
def specSafetyCount
    (results : List (String × Option IngredientAnalysisResult))
    (lvl : SafetyLevel) : Nat :=
  ((specMatchedRecords results).filter (fun r => r.safety_level == lvl)).length

/-- A concrete caution record (names follow the spec's §8 scenario). -/
def rSugar : IngredientAnalysisResult :=
  { name := "Sugar", id := 1, safety_level := .caution, health_score := some 40,
    concerns := ["high glycemic index"], benefits := [] }

/-- A concrete record whose name shares the word "sodium" with the benzoate
ingredient text but is not equal to it. -/
def rSodiumChloride : IngredientAnalysisResult :=
  { name := "sodium chloride", id := 2, safety_level := .caution, health_score := none,
    concerns := [], benefits := [] }

/-- A concrete record whose name is exactly the benzoate ingredient text
(up to case). -/
def rSodiumBenzoate : IngredientAnalysisResult :=
  { name := "sodium benzoate", id := 3, safety_level := .avoid, health_score := some 20,
    concerns := ["may form benzene in combination with vitamin C"], benefits := [] }

/-- A concrete record whose short name is a substring of a longer compound
ingredient text. -/
def rSodium : IngredientAnalysisResult :=
  { name := "sodium", id := 4, safety_level := .caution, health_score := none,
    concerns := [], benefits := [] }

/-- A concrete record whose name matches no ingredient of the examples. -/
def rZzz : IngredientAnalysisResult :=
  { name := "zzz", id := 5, safety_level := .safe, health_score := none,
    concerns := ["placeholder concern"], benefits := [] }

/-- The scan methods of the scan view (`ScanType` of the types module). -/
inductive ScanType where
  | barcode
  | camera
  | image
deriving DecidableEq, Repr

/-- The observable state of the scan view that the capture lifecycle
touches.  `quaggaRunning` is the decoding loop of the Quagga barcode
engine; `videoAttached` models `videoRef.current` being non-null;
`ocrStream` models `videoRef.current.srcObject` (a held `getUserMedia`
stream, identified by a handle number); `stoppedStreams` records the
handles whose tracks have been stopped (`track.stop()`). -/
structure ScanState where
  activeTab : ScanType
  barcode : String
  error : Option String
  cameraActive : Bool
  cameraError : Option String
  quaggaRunning : Bool
  videoAttached : Bool
  ocrStream : Option Nat
  stoppedStreams : List Nat
  selectedFile : Option String
  previewUrl : Option String
deriving DecidableEq, Repr

/-- `stopCamera` of the scan view: when `cameraActive`, stop the Quagga
engine and clear the flag; otherwise do nothing. -/
def stopCamera (s : ScanState) : ScanState :=
  if s.cameraActive then { s with quaggaRunning := false, cameraActive := false } else s

/-- `stopCameraForOCR` of the scan view: return early when `videoRef` is
detached or holds no stream; otherwise stop every track of the held
stream, clear `srcObject` and the `cameraActive` flag. -/
def stopCameraForOCR (s : ScanState) : ScanState :=
  if !s.videoAttached then s
  else
    match s.ocrStream with
    | none => s
    | some h =>
      { s with stoppedStreams := h :: s.stoppedStreams, ocrStream := none,
               cameraActive := false }

/-- `handleTabChange` of the scan view: select the new tab, then reset
transient state — clear the barcode buffer and the error, call
`stopCamera`, clear the selected file and the preview URL.  (The source
does not call `stopCameraForOCR` here.) -/
def handleTabChange (s : ScanState) (newValue : ScanType) : ScanState :=
  let s1 := { s with activeTab := newValue }
  let s2 := { s1 with barcode := "" }
  let s3 := { s2 with error := none }
  let s4 := stopCamera s3
  { s4 with selectedFile := none, previewUrl := none }

/-- The success path of `startCameraForOCR`: with `videoRef` attached,
bind the acquired `getUserMedia` stream to `srcObject`, set
`cameraActive`, clear the camera error.  (With `videoRef` detached the
function returns before acquiring.) -/
def startCameraForOCR (s : ScanState) (h : Nat) : ScanState :=
  if !s.videoAttached then s
  else { s with ocrStream := some h, cameraActive := true, cameraError := none }

/-- The per-session observables of barcode scanning that
`handleBarcodeDetected` touches: the `cameraActive` flag, the barcode
buffer, the number of `Quagga.stop()` calls and the number of
`handleBarcodeSearch` invocations (the value submitted is the stale
closure-captured buffer and is not modelled). -/
structure BarcodeSession where
  cameraActive : Bool
  barcode : String
  quaggaStopCalls : Nat
  searchInvocations : Nat
deriving DecidableEq, Repr

/-- `handleBarcodeDetected` of the scan view, applied to one delivery of
the Quagga `onDetected` callback: with no decoded code the delivery is
ignored; with a decoded code it stops Quagga, clears `cameraActive`, sets
the barcode buffer and invokes `handleBarcodeSearch` — with no guard
against a repeated delivery. -/
def handleBarcodeDetected (s : BarcodeSession) (codeResult : Option String) :
    BarcodeSession :=
  match codeResult with
  | none => s
  | some code =>
    { s with quaggaStopCalls := s.quaggaStopCalls + 1,
             cameraActive := false,
             barcode := code,
             searchInvocations := s.searchInvocations + 1 }

/-- Process a list of `onDetected` deliveries in order. -/
def runDetectedEvents (s : BarcodeSession) : List (Option String) → BarcodeSession
  | [] => s
  | e :: es => runDetectedEvents (handleBarcodeDetected s e) es

/-- A session in `BarcodeScanning` just after `Quagga.start()` succeeded. -/
def scanningSession : BarcodeSession :=
  { cameraActive := true, barcode := "", quaggaStopCalls := 0, searchInvocations := 0 }

/-- An idle scan view: no camera resource held. -/
def idleScanState : ScanState :=
  { activeTab := .barcode, barcode := "", error := none, cameraActive := false,
    cameraError := none, quaggaRunning := false, videoAttached := false,
    ocrStream := none, stoppedStreams := [], selectedFile := none, previewUrl := none }

/-- The scan view on the Upload tab with the OCR `video` element mounted
and no stream yet. -/
def uploadTabState : ScanState :=
  { activeTab := .image, barcode := "", error := none, cameraActive := false,
    cameraError := none, quaggaRunning := false, videoAttached := true,
    ocrStream := none, stoppedStreams := [], selectedFile := none, previewUrl := none }

/-- The transport-layer error information the catch branches of
`ApiService` read: `error.response?.data?.error` (absent when the failure
carried no server body). -/
structure AxiosErrorInfo where
  responseDataError : Option String
deriving DecidableEq, Repr

/-- JS `x || fallback` on an optional string field: `undefined`, `null`
and the empty string select the fallback. -/
def jsOrElse (v : Option String) (fallback : String) : String :=
  match v with
  | none => fallback
  | some s => if jsFalsy s then fallback else s

/-- JS `a || b` where both operands are optional strings
(`response.data.message || response.data.error`). -/
def jsOrOption (a b : Option String) : Option String :=
  match a with
  | none => b
  | some s => if jsFalsy s then b else some s

/-- JS `x || false` on an optional boolean field (`response.data.success`). -/
def jsOrFalse (v : Option Bool) : Bool :=
  match v with
  | none => false
  | some b => b

/-- The `Product` record of frontend/src/services/api.ts (optional display
fields omitted: no studied code reads them). -/
structure Product where
  barcode : String
  name : String
  brand : String
  ingredients : List String
  countries : String
deriving DecidableEq, Repr

/-- The `{} as Product` default payload of the catch branches: an empty
object cast to `Product`, modelled as the all-empty record. -/
def emptyProduct : Product :=
  { barcode := "", name := "", brand := "", ingredients := [], countries := "" }

/-- The `OCRResult` record of frontend/src/services/api.ts
(`processing_time` is a JS number, modelled as a natural). -/
structure OCRResult where
  ingredients : List String
  processing_time : Nat
  image_path : String
deriving DecidableEq, Repr

/-- The `AnalysisResponse` record of frontend/src/services/api.ts. -/
structure AnalysisResponse where
  success : Bool
  ingredients : List IngredientAnalysisResult
  processing_time : Nat
  error : Option String
deriving DecidableEq, Repr

/-- The `ApiResponse<T>` envelope of frontend/src/services/api.ts
(`message` is optional there). -/
structure ApiResponse (α : Type) where
  data : α
  success : Bool
  message : Option String
deriving DecidableEq, Repr

/-- A successful HTTP reply body as the try branches read it: the typed
payload view of `response.data`, plus its `success` and `error` fields
(either may be absent). -/
structure ServerData (α : Type) where
  payload : α
  success : Option Bool
  error : Option String
deriving DecidableEq, Repr

/-- The reply body of the manual-product endpoint, as `addManualProduct`
reads it: `response.data.product`, `.success`, `.message`, `.error`. -/
structure ManualProductReply where
  product : Product
  success : Option Bool
  message : Option String
  error : Option String
deriving DecidableEq, Repr

/-- `ApiService.lookupBarcode` as a function of the transport outcome: the
try branch wraps the reply; the catch branch returns an empty product,
`success: false` and the server error or a fixed fallback message. -/
def lookupBarcode (outcome : Except AxiosErrorInfo (ServerData Product)) :
    ApiResponse Product :=
  match outcome with
  | .ok resp =>
    { data := resp.payload, success := jsOrFalse resp.success, message := resp.error }
  | .error e =>
    { data := emptyProduct, success := false,
      message := some (jsOrElse e.responseDataError "Failed to lookup barcode") }

/-- `ApiService.processImage` as a function of the transport outcome. -/
def processImage (outcome : Except AxiosErrorInfo (ServerData OCRResult)) :
    ApiResponse OCRResult :=
  match outcome with
  | .ok resp =>
    { data := resp.payload, success := jsOrFalse resp.success, message := resp.error }
  | .error e =>
    { data := { ingredients := [], processing_time := 0, image_path := "" },
      success := false,
      message := some (jsOrElse e.responseDataError "Failed to process image") }

/-- `ApiService.processCameraImage` as a function of the transport
outcome. -/
def processCameraImage (outcome : Except AxiosErrorInfo (ServerData OCRResult)) :
    ApiResponse OCRResult :=
  match outcome with
  | .ok resp =>
    { data := resp.payload, success := jsOrFalse resp.success, message := resp.error }
  | .error e =>
    { data := { ingredients := [], processing_time := 0, image_path := "" },
      success := false,
      message := some (jsOrElse e.responseDataError "Failed to process camera image") }

/-- `ApiService.addManualProduct` as a function of the transport
outcome. -/
def addManualProduct (outcome : Except AxiosErrorInfo ManualProductReply) :
    ApiResponse Product :=
  match outcome with
  | .ok r =>
    { data := r.product, success := jsOrFalse r.success,
      message := jsOrOption r.message r.error }
  | .error e =>
    { data := emptyProduct, success := false,
      message := some (jsOrElse e.responseDataError "Failed to add product") }

/-- `ApiService.healthCheck` as a function of the transport outcome: a
bare boolean — `status === 200` on a reply, `false` on any thrown error. -/
def healthCheck (outcome : Except AxiosErrorInfo Nat) : Bool :=
  match outcome with
  | .ok status => status == 200
  | .error _ => false

/-- `ApiService.analyzeIngredients` as a function of the transport
outcome. -/
def analyzeIngredients
    (outcome : Except AxiosErrorInfo (ServerData AnalysisResponse)) :
    ApiResponse AnalysisResponse :=
  match outcome with
  | .ok resp =>
    { data := resp.payload, success := jsOrFalse resp.success, message := resp.error }
  | .error e =>
    { data := { success := false, ingredients := [], processing_time := 0,
                error := some (jsOrElse e.responseDataError "Failed to analyze ingredients") },
      success := false,
      message := some (jsOrElse e.responseDataError "Failed to analyze ingredients") }

/-- The public operations of `ApiService`. -/
inductive ApiOperation where
  | lookupBarcodeOp
  | processImageOp
  | processCameraImageOp
  | addManualProductOp
  | healthCheckOp
  | analyzeIngredientsOp
deriving DecidableEq, Repr

/-- What a caller observes of an operation's result when the underlying
call threw: whether the operation returns a structured `ApiResponse`
envelope at all (as opposed to a bare boolean), the success flag it
carries, and the message it carries. -/
structure FailureObservation where
  structuredResponse : Bool
  successFlag : Bool
  message : Option String
deriving DecidableEq, Repr

/-- The failure observation of each `ApiService` operation on a thrown
transport error `e`. -/
def failureObservation (op : ApiOperation) (e : AxiosErrorInfo) : FailureObservation :=
  match op with
  | .lookupBarcodeOp =>
    let r := lookupBarcode (.error e)
    { structuredResponse := true, successFlag := r.success, message := r.message }
  | .processImageOp =>
    let r := processImage (.error e)
    { structuredResponse := true, successFlag := r.success, message := r.message }
  | .processCameraImageOp =>
    let r := processCameraImage (.error e)
    { structuredResponse := true, successFlag := r.success, message := r.message }
  | .addManualProductOp =>
    let r := addManualProduct (.error e)
    { structuredResponse := true, successFlag := r.success, message := r.message }
  | .healthCheckOp =>
    { structuredResponse := false, successFlag := healthCheck (.error e), message := none }
  | .analyzeIngredientsOp =>
    let r := analyzeIngredients (.error e)
    { structuredResponse := true, successFlag := r.success, message := r.message }

/-- A string whose JS-truthiness check fails is not the empty string. -/
theorem ne_empty_of_not_falsy (s : String) (h : jsFalsy s = false) : s ≠ "" := fun he =>
  absurd (he ▸ h) (by decide)

/-- The message produced by `error.response?.data?.error || fallback` is
never empty when the fallback is non-empty. -/
theorem jsOrElse_ne_empty (v : Option String) (fallback : String)
    (h : jsFalsy fallback = false) : jsOrElse v fallback ≠ "" := by
  cases v with
  | none => exact ne_empty_of_not_falsy fallback h
  | some s =>
    by_cases hs : jsFalsy s
    · simpa [jsOrElse, hs] using ne_empty_of_not_falsy fallback h
    · have hs2 : jsFalsy s = false := by simpa using hs
      simpa [jsOrElse, hs2] using ne_empty_of_not_falsy s hs2

/-- Claim C7 (confirmed): reconciling a list of ingredient texts against a
list of analysis records yields exactly one result per ingredient, in
input order — no ingredient is dropped, merged or reordered, for every
ingredient list (duplicates included) and every record pool (the empty
pool included). -/
theorem C7_reconcile_length_order (I : List String)
    (R : List IngredientAnalysisResult) :
    (ocrReconcile I R).map Prod.fst = I ∧ (ocrReconcile I R).length = I.length := by
  constructor
  · unfold ocrReconcile
    induction I with
    | nil => rfl
    | cons a t ih => simpa using ih
  · simp [ocrReconcile]

/-- Witness for C7 at the spec's §8 scenario inputs. -/
theorem C7_witness :
    (ocrReconcile ["Sugar", "Palm Oil", "Hazelnuts (13%)"] [rSugar]).map Prod.fst
        = ["Sugar", "Palm Oil", "Hazelnuts (13%)"] ∧
    (ocrReconcile ["Sugar", "Palm Oil", "Hazelnuts (13%)"] [rSugar]).length = 3 := by
  exact C7_reconcile_length_order ["Sugar", "Palm Oil", "Hazelnuts (13%)"] [rSugar]

/-- Counterexample to claim C1: in the single pass reconciling
`["Sugar", "Sugar"]` against the one-record pool `[rSugar]`, the record
`rSugar` is bound to both ingredients, so an analysis record is used by
more than one match result. -/
theorem C1_counterexample :
    (ocrReconcile ["Sugar", "Sugar"] [rSugar]).map Prod.snd
        = [some rSugar, some rSugar] ∧
    ¬ recordBoundAtMostOnce (ocrReconcile ["Sugar", "Sugar"] [rSugar]) := by
  constructor
  · decide
  · unfold recordBoundAtMostOnce
    decide

/-- Claim C1 as amended: the matcher never consumes records — each
ingredient is bound, independently of all other ingredients of the pass,
to the first record of the full pool matching it, so the same record may
appear in several match results. -/
theorem C1_amended_independent_binding (I : List String)
    (R : List IngredientAnalysisResult) (t : String) (h : t ∈ I) :
    (t, R.find? (ocrMatchPred t)) ∈ ocrReconcile I R := by
  unfold ocrReconcile
  exact List.mem_map_of_mem _ h

/-- Witness for the amended C1. -/
theorem C1_witness :
    ("Sugar", [rSugar].find? (ocrMatchPred "Sugar"))
        ∈ ocrReconcile ["Sugar", "Sugar"] [rSugar] :=
  C1_amended_independent_binding ["Sugar", "Sugar"] [rSugar] "Sugar" (by decide)

/-- Counterexample to claim C2: for the ingredient "Sodium Benzoate" the
pool holds a tier-1 (exactly equal after normalisation) record
`rSodiumBenzoate`, yet the matcher binds the earlier record
`rSodiumChloride`, which matches only by token overlap (it is not tier-1
equal). -/
theorem C2_counterexample :
    ocrTier1Equal "Sodium Benzoate" rSodiumBenzoate.name = true ∧
    (ocrReconcile ["Sodium Benzoate"] [rSodiumChloride, rSodiumBenzoate]).map Prod.snd
        = [some rSodiumChloride] ∧
    (ocrReconcile ["Sodium Benzoate"] [rSodiumChloride, rSodiumBenzoate]).map Prod.snd
        ≠ [some rSodiumBenzoate] ∧
    ocrTier1Equal "Sodium Benzoate" rSodiumChloride.name = false := by
  refine ⟨by decide, by decide, by decide, by decide⟩

/-- Claim C2 as amended: an exact (tier-1) record in the pool guarantees
the ingredient is bound to SOME record — but to the first record matching
any tier in pool order, not necessarily to the exactly-equal one. -/
theorem C2_amended_exact_implies_bound (ingredientText : String)
    (R : List IngredientAnalysisResult) (r : IngredientAnalysisResult)
    (hr : r ∈ R) (hname : jsFalsy r.name = false)
    (hnonempty : jsFalsy (jsTrim (jsToLowerCase r.name)) = false)
    (hnorm : jsTrim (jsToLowerCase r.name) = jsTrim (jsToLowerCase ingredientText)) :
    (R.find? (ocrMatchPred ingredientText)).isSome = true := by
  rw [List.find?_isSome]
  refine ⟨r, hr, ?_⟩
  have hne2 : jsFalsy (jsTrim (jsToLowerCase ingredientText)) = false := hnorm ▸ hnonempty
  simp [ocrMatchPred, hname, hnorm, hne2]

/-- Witness for the amended C2. -/
theorem C2_witness :
    ([rSodiumChloride, rSodiumBenzoate].find? (ocrMatchPred "Sodium Benzoate")).isSome
        = true :=
  C2_amended_exact_implies_bound "Sodium Benzoate" [rSodiumChloride, rSodiumBenzoate]
    rSodiumBenzoate (by decide) (by decide) (by decide) (by decide)

/-- Counterexample to claim C5: both `rSodium` and the longer-named
`rSodiumBenzoate` qualify for "Sodium Benzoate Mix" by substring
containment, yet the matcher binds the shorter-named `rSodium` because it
comes first in the pool — the longest-name preference does not exist. -/
theorem C5_counterexample :
    jsIncludes (jsTrim (jsToLowerCase "Sodium Benzoate Mix"))
        (jsTrim (jsToLowerCase rSodium.name)) = true ∧
    jsIncludes (jsTrim (jsToLowerCase "Sodium Benzoate Mix"))
        (jsTrim (jsToLowerCase rSodiumBenzoate.name)) = true ∧
    rSodium.name.length < rSodiumBenzoate.name.length ∧
    (ocrReconcile ["Sodium Benzoate Mix"] [rSodium, rSodiumBenzoate]).map Prod.snd
        = [some rSodium] ∧
    (ocrReconcile ["Sodium Benzoate Mix"] [rSodium, rSodiumBenzoate]).map Prod.snd
        ≠ [some rSodiumBenzoate] := by
  refine ⟨by decide, by decide, by decide, by decide, by decide⟩

/-- Claim C5 as amended: among qualifying records, pool order alone
decides — a record at the head of the pool that matches (at any tier) is
always the one bound, whatever the name lengths of later records. -/
theorem C5_amended_pool_order_wins (ingredientText : String)
    (r : IngredientAnalysisResult) (R : List IngredientAnalysisResult)
    (h : ocrMatchPred ingredientText r = true) :
    ocrReconcile [ingredientText] (r :: R) = [(ingredientText, some r)] := by
  unfold ocrReconcile
  simp [List.find?_cons_of_pos _ h]

/-- Witness for the amended C5. -/
theorem C5_witness :
    ocrReconcile ["Sodium Benzoate Mix"] (rSodium :: [rSodiumBenzoate])
        = [("Sodium Benzoate Mix", some rSodium)] :=
  C5_amended_pool_order_wins "Sodium Benzoate Mix" rSodium [rSodiumBenzoate] (by decide)

/-- Counterexample to claim C6: "(Sodium Benzoate)" and "sodium benzoate"
differ only in case and surrounding punctuation, yet they are NOT tier-1
equal in either matching path — the code strips no punctuation. -/
theorem C6_counterexample :
    ocrTier1Equal "(Sodium Benzoate)" "sodium benzoate" = false ∧
    productTier1Equal "(Sodium Benzoate)" "sodium benzoate" = false := by
  refine ⟨by decide, by decide⟩

/-- Claim C6 as amended: the OCR path normalises by lowercasing and
trimming (so case and surrounding-whitespace variants are tier-1 equal);
the product path only lowercases (so only case variants are tier-1 equal
there, not whitespace variants); neither path strips punctuation, so a
surrounding-punctuation variant is not tier-1 equal — it still matches,
but only via tier-2 substring containment. -/
theorem C6_amended_normalization :
    (∀ ingredientText name : String,
        jsTrim (jsToLowerCase name) = jsTrim (jsToLowerCase ingredientText) →
        ocrTier1Equal ingredientText name = true) ∧
    (∀ ingredientText name : String,
        jsToLowerCase name = jsToLowerCase ingredientText →
        productTier1Equal ingredientText name = true) ∧
    ocrTier1Equal "  SODIUM Benzoate " "sodium benzoate" = true ∧
    productTier1Equal "SODIUM Benzoate" "sodium benzoate" = true ∧
    productTier1Equal " sodium benzoate" "sodium benzoate " = false ∧
    ocrMatchPred "(Sodium Benzoate)" rSodiumBenzoate = true ∧
    productMatchPred "(Sodium Benzoate)" rSodiumBenzoate = true := by
  refine ⟨?_, ?_, by decide, by decide, by decide, by decide, by decide⟩
  · intro ingredientText name h
    simp [ocrTier1Equal, h]
  · intro ingredientText name h
    simp [productTier1Equal, h]

/-- Witness for the amended C6. -/
theorem C6_witness :
    ocrTier1Equal "Sodium  Benzoate " "SODIUM  BENZOATE" = true ∧
    productTier1Equal "Sodium Benzoate" "SODIUM BENZOATE" = true :=
  ⟨C6_amended_normalization.1 "Sodium  Benzoate " "SODIUM  BENZOATE" (by decide),
   C6_amended_normalization.2.1 "Sodium Benzoate" "SODIUM BENZOATE" (by decide)⟩

/-- Counterexample to claim C8: the record `rZzz` matches no ingredient of
the pass (its match result is `none`), yet the safe-count badge still
counts it, and the detailed list still lists it — the aggregation runs
over all analysis records, not over the matched ones. -/
theorem C8_counterexample :
    (ocrReconcile ["Sugar"] [rZzz]).map Prod.snd = [none] ∧
    safetyLevelCount [rZzz] SafetyLevel.safe = 1 ∧
    specSafetyCount (ocrReconcile ["Sugar"] [rZzz]) SafetyLevel.safe = 0 ∧
    safetyLevelCount [rZzz] SafetyLevel.safe
        ≠ specSafetyCount (ocrReconcile ["Sugar"] [rZzz]) SafetyLevel.safe ∧
    detailedAnalysisList [rZzz] = [rZzz] ∧
    specMatchedRecords (ocrReconcile ["Sugar"] [rZzz]) = [] := by
  refine ⟨by decide, by decide, by decide, by decide, by decide, by decide⟩

/-- Claim C8 as amended: the per-level counts are computed over all
returned analysis records (matched to an ingredient or not) and the four
levels partition the record list; the detailed list is the in-order
sublist of the records (not of the ingredients) with non-empty concerns or
benefits; empty input yields zero counts and an empty detail list. -/
theorem C8_amended_aggregation (rs : List IngredientAnalysisResult) :
    (safetyLevelCount rs SafetyLevel.safe + safetyLevelCount rs SafetyLevel.caution +
      safetyLevelCount rs SafetyLevel.avoid + safetyLevelCount rs SafetyLevel.unknown
        = rs.length) ∧
    List.Sublist (detailedAnalysisList rs) rs ∧
    (∀ r ∈ detailedAnalysisList rs, 0 < r.concerns.length ∨ 0 < r.benefits.length) ∧
    (∀ lvl, safetyLevelCount [] lvl = 0) ∧
    detailedAnalysisList [] = [] := by
  refine ⟨?_, List.filter_sublist _, ?_, fun lvl => rfl, rfl⟩
  · induction rs with
    | nil => rfl
    | cons r t ih =>
      cases h : r.safety_level <;>
        simp [safetyLevelCount, List.filter_cons, h, beq_iff_eq] at ih ⊢ <;>
        omega
  · intro r hr
    have h2 := (List.mem_filter.mp hr).2
    simpa using h2

/-- Witness for the amended C8. -/
theorem C8_witness :
    (safetyLevelCount [rSugar, rZzz] SafetyLevel.safe +
      safetyLevelCount [rSugar, rZzz] SafetyLevel.caution +
      safetyLevelCount [rSugar, rZzz] SafetyLevel.avoid +
      safetyLevelCount [rSugar, rZzz] SafetyLevel.unknown = 2) ∧
    (0 < rZzz.concerns.length ∨ 0 < rZzz.benefits.length) := by
  exact ⟨(C8_amended_aggregation [rSugar, rZzz]).1,
         (C8_amended_aggregation [rSugar, rZzz]).2.2.1 rZzz (by decide)⟩

/-- Claim C9 (confirmed): both release operations are idempotent no-ops
when no handle is held — `stopCamera` with `cameraActive` clear, and
`stopCameraForOCR` with no stream bound, leave the state unchanged (and
being total functions they raise nothing) — and running either release
twice equals running it once. -/
theorem C9_release_idempotent :
    (∀ s : ScanState, s.cameraActive = false → stopCamera s = s) ∧
    (∀ s : ScanState, s.ocrStream = none → stopCameraForOCR s = s) ∧
    (∀ s : ScanState, stopCamera (stopCamera s) = stopCamera s) ∧
    (∀ s : ScanState, stopCameraForOCR (stopCameraForOCR s) = stopCameraForOCR s) := by
  refine ⟨fun s h => ?_, fun s h => ?_, fun s => ?_, fun s => ?_⟩
  · simp [stopCamera, h]
  · simp [stopCameraForOCR, h]
  · by_cases h : s.cameraActive <;> simp [stopCamera, h]
  · by_cases hv : s.videoAttached
    · cases ho : s.ocrStream <;> simp [stopCameraForOCR, hv, ho]
    · simp [stopCameraForOCR, hv]

/-- Witness for C9 at the idle scan view. -/
theorem C9_witness :
    stopCamera idleScanState = idleScanState ∧
    stopCameraForOCR idleScanState = idleScanState ∧
    stopCamera (stopCamera idleScanState) = stopCamera idleScanState ∧
    stopCameraForOCR (stopCameraForOCR idleScanState)
        = stopCameraForOCR idleScanState :=
  ⟨C9_release_idempotent.1 idleScanState rfl,
   C9_release_idempotent.2.1 idleScanState rfl,
   C9_release_idempotent.2.2.1 idleScanState,
   C9_release_idempotent.2.2.2 idleScanState⟩

/-- Claim C3 (code bug, evaluated at the failing input): with the OCR
camera stream live on the Upload tab, switching tabs leaves the
`getUserMedia` stream bound and its tracks running — `handleTabChange`
calls `stopCamera` (the Quagga release) but never `stopCameraForOCR`, so
the held camera stream survives the switch. -/
theorem C3_tab_switch_keeps_ocr_stream :
    (startCameraForOCR uploadTabState 7).ocrStream = some 7 ∧
    (startCameraForOCR uploadTabState 7).cameraActive = true ∧
    (handleTabChange (startCameraForOCR uploadTabState 7) ScanType.barcode).ocrStream
        = some 7 ∧
    (handleTabChange (startCameraForOCR uploadTabState 7) ScanType.barcode).stoppedStreams
        = [] ∧
    (handleTabChange (startCameraForOCR uploadTabState 7) ScanType.barcode).activeTab
        = ScanType.barcode := by
  refine ⟨rfl, rfl, rfl, rfl, rfl⟩

/-- Counterexample to claim C4: the same decoded barcode delivered twice
during one scanning session triggers two `handleBarcodeSearch` invocations
and two `Quagga.stop()` calls — the callback has no duplicate-suppression
guard. -/
theorem C4_counterexample :
    (runDetectedEvents scanningSession
        [some "5000112637922", some "5000112637922"]).searchInvocations = 2 ∧
    (runDetectedEvents scanningSession
        [some "5000112637922", some "5000112637922"]).quaggaStopCalls = 2 := by
  refine ⟨by decide, by decide⟩

/-- Claim C4 as amended: every delivery carrying a decoded code is acted
upon — each one stops the scanner and invokes the submission routine once,
so after a session's deliveries the submission and stop counts both equal
the number of decoded deliveries (duplicates are not suppressed by the
controller; quiescence relies on the decoder ceasing callbacks after
stop). -/
theorem C4_amended_every_decode_acted (s : BarcodeSession)
    (events : List (Option String)) :
    (runDetectedEvents s events).searchInvocations
        = s.searchInvocations + (events.filter Option.isSome).length ∧
    (runDetectedEvents s events).quaggaStopCalls
        = s.quaggaStopCalls + (events.filter Option.isSome).length := by
  induction events generalizing s with
  | nil => simp [runDetectedEvents]
  | cons e es ih =>
    cases e with
    | none =>
      simpa [runDetectedEvents, handleBarcodeDetected] using ih s
    | some c =>
      have h := ih (handleBarcodeDetected s (some c))
      simp [runDetectedEvents, handleBarcodeDetected, List.filter_cons] at h ⊢
      omega

/-- Witness for the amended C4. -/
theorem C4_witness :
    (runDetectedEvents scanningSession [some "5000112637922", none]).searchInvocations
        = scanningSession.searchInvocations
          + (([some "5000112637922", none] : List (Option String)).filter
              Option.isSome).length ∧
    (runDetectedEvents scanningSession [some "5000112637922", none]).quaggaStopCalls
        = scanningSession.quaggaStopCalls
          + (([some "5000112637922", none] : List (Option String)).filter
              Option.isSome).length :=
  C4_amended_every_decode_acted scanningSession [some "5000112637922", none]

/-- Counterexample to claim C10: on a thrown transport error,
`healthCheck` does not return a structured response with a non-empty
message and a default payload — it returns the bare boolean `false`,
carrying no message at all. -/
theorem C10_counterexample :
    (failureObservation ApiOperation.healthCheckOp ⟨none⟩).structuredResponse = false ∧
    (failureObservation ApiOperation.healthCheckOp ⟨none⟩).message = none ∧
    healthCheck (Except.error ⟨none⟩) = false := by
  refine ⟨rfl, rfl, rfl⟩

/-- Claim C10 as amended: the five `ApiResponse`-returning operations are
total over thrown errors — each returns `success = false`, a non-empty
message and its default data payload, never propagating the exception —
while `healthCheck` is total too but signals failure as the bare boolean
`false`, with no message or data payload. -/
theorem C10_amended_total_error_handling (e : AxiosErrorInfo) :
    ((lookupBarcode (Except.error e)).success = false ∧
      (lookupBarcode (Except.error e)).data = emptyProduct ∧
      ∃ m, (lookupBarcode (Except.error e)).message = some m ∧ m ≠ "") ∧
    ((processImage (Except.error e)).success = false ∧
      (processImage (Except.error e)).data
          = { ingredients := [], processing_time := 0, image_path := "" } ∧
      ∃ m, (processImage (Except.error e)).message = some m ∧ m ≠ "") ∧
    ((processCameraImage (Except.error e)).success = false ∧
      (processCameraImage (Except.error e)).data
          = { ingredients := [], processing_time := 0, image_path := "" } ∧
      ∃ m, (processCameraImage (Except.error e)).message = some m ∧ m ≠ "") ∧
    ((addManualProduct (Except.error e)).success = false ∧
      (addManualProduct (Except.error e)).data = emptyProduct ∧
      ∃ m, (addManualProduct (Except.error e)).message = some m ∧ m ≠ "") ∧
    ((analyzeIngredients (Except.error e)).success = false ∧
      (analyzeIngredients (Except.error e)).data.success = false ∧
      (analyzeIngredients (Except.error e)).data.ingredients = [] ∧
      ∃ m, (analyzeIngredients (Except.error e)).message = some m ∧ m ≠ "") ∧
    healthCheck (Except.error e) = false := by
  refine ⟨⟨rfl, rfl, ⟨_, rfl, jsOrElse_ne_empty _ _ (by decide)⟩⟩,
          ⟨rfl, rfl, ⟨_, rfl, jsOrElse_ne_empty _ _ (by decide)⟩⟩,
          ⟨rfl, rfl, ⟨_, rfl, jsOrElse_ne_empty _ _ (by decide)⟩⟩,
          ⟨rfl, rfl, ⟨_, rfl, jsOrElse_ne_empty _ _ (by decide)⟩⟩,
          ⟨rfl, rfl, rfl, ⟨_, rfl, jsOrElse_ne_empty _ _ (by decide)⟩⟩,
          rfl⟩

/-- Witness for the amended C10. -/
theorem C10_witness :
    (lookupBarcode (Except.error ⟨some ""⟩)).success = false ∧
    healthCheck (Except.error ⟨some ""⟩) = false :=
  ⟨(C10_amended_total_error_handling ⟨some ""⟩).1.1,
   (C10_amended_total_error_handling ⟨some ""⟩).2.2.2.2.2⟩
